import Mathlib

/-!
Shallow embedding of `solver.py` (arvention/VGGNet): the training/evaluation
harness of a VGG-style image classifier.

Modelling conventions, all taken from the source:
* Tensors are modelled as lists of integers (`Tensor`); integer scores stand
  in for the framework's floating-point logits.  Model parameters are an
  abstract value of type `Params`.
* `utils.to_var` only wraps a tensor in a `Variable` / moves it to the GPU; it
  does not change the tensor's contents, so it is modelled as the identity on
  the payload (the `use_gpu` flag is kept as an argument for fidelity).
* The network `self.model` is modelled by `ModelSpec`: a class count together
  with a scoring function `Params → Int → Nat → Int` (parameters, image
  element, class index ↦ logit).  A forward pass on a batch produces one row
  of `classCount` scores per image element.
* Framework-level failures that the evaluator can hit are made explicit in
  `EvalErr`:
  - `torch.max(output, dim=1)` on a tensor whose class dimension has size 0
    raises (`maxEmptyDim`);
  - `torch.topk(output, k=5, dim=1)` raises when the class dimension has
    fewer than 5 entries (`topkOutOfRange`);
  - `top_1_correct` is initialised to the Python int `0` and only becomes a
    tensor after the first `+=` of a batch's `torch.sum(...)`; on an empty
    data loader the final `top_1_correct.item()` call therefore raises
    `AttributeError` (`itemOnPlainInt`).
-/

namespace VGG

abbrev Tensor := List Int

abbrev Params := List Int

/-- `utils.to_var(x, use_gpu)`: wraps in a Variable / moves to GPU; the
payload is unchanged. -/
def to_var (t : Tensor) (_use_gpu : Bool) : Tensor := t

/-- `tensor.squeeze()`: drops size-1 dimensions; on our 1-D batch model the
payload is unchanged. -/
def squeeze (t : Tensor) : Tensor := t

/-- The external `VGGNet` model: a class count and a scoring function
(parameters, image element, class index ↦ logit). -/
structure ModelSpec where
  classCount : Nat
  score : Params → Int → Nat → Int

/-- `self.model(images)`: one row of `classCount` scores per image element. -/
def modelOutput (m : ModelSpec) (p : Params) (images : Tensor) : List (List Int) :=
  images.map fun img => (List.range m.classCount).map (m.score p img)

/-- Pairs each list element with its index, starting from `i`. -/
def withIdx (i : Nat) : List Int → List (Nat × Int)
  | [] => []
  | x :: xs => (i, x) :: withIdx (i + 1) xs

/-- Extracts the first pair of maximal value from an indexed list, returning
it together with the remaining pairs (order preserved).  Ties are broken in
favour of the earlier index, as `torch.max` / `torch.topk` do. -/
def pickMax : List (Nat × Int) → Option ((Nat × Int) × List (Nat × Int))
  | [] => none
  | p :: rest =>
    match pickMax rest with
    | none => some (p, [])
    | some (q, rem) => if q.2 > p.2 then some (q, p :: rem) else some (p, rest)

/-- Indices of the `k` largest values (largest first), by repeated extraction. -/
def topkAux : Nat → List (Nat × Int) → List Nat
  | 0, _ => []
  | Nat.succ k, l =>
    match pickMax l with
    | none => []
    | some (q, rem) => q.1 :: topkAux k rem

/-- `torch.max(row, ...)` index component: index of the first maximal entry. -/
def torchMaxIdx (row : List Int) : Nat :=
  match pickMax (withIdx 0 row) with
  | none => 0
  | some (q, _) => q.1

/-- `torch.topk(row, k)` index component. -/
def topkIdx (k : Nat) (row : List Int) : List Nat :=
  topkAux k (withIdx 0 row)

/-- Failures the evaluator can raise through the framework. -/
inductive EvalErr
  | maxEmptyDim
  | topkOutOfRange
  | itemOnPlainInt
deriving DecidableEq

/-- `torch.max(output.data, dim=1)` over a batch: fails when the class
dimension is empty, otherwise yields the per-row argmax indices. -/
def batchMax (c : Nat) (rows : List (List Int)) : Except EvalErr (List Nat) :=
  if c = 0 then Except.error EvalErr.maxEmptyDim
  else Except.ok (rows.map torchMaxIdx)

/-- `torch.topk(output.data, k=5, dim=1)`: fails when the class dimension has
fewer than 5 entries. -/
def batchTopk (c : Nat) (rows : List (List Int)) : Except EvalErr (List (List Nat)) :=
  if c < 5 then Except.error EvalErr.topkOutOfRange
  else Except.ok (rows.map (topkIdx 5))

/-- `torch.sum(torch.eq(labels, top_1_output))`: pairwise equality count. -/
def countEq : Tensor → List Nat → Nat
  | l :: ls, t :: ts => (if l = (t : Int) then 1 else 0) + countEq ls ts
  | _, _ => 0

/-- The `label in top_5_output[i]` tally of the top-5 loop. -/
def countIn5 : Tensor → List (List Nat) → Nat
  | l :: ls, t :: ts => (if t.any fun j => (j : Int) = l then 1 else 0) + countIn5 ls ts
  | _, _ => 0

namespace Solver

/-- The batch loop of `Solver.eval`, threading the three accumulators
`(top_1_correct, top_5_correct, total)`; a framework error aborts the loop. -/
def evalBatches (u : Bool) (m : ModelSpec) (p : Params) :
    List (Tensor × Tensor) → Nat × Nat × Nat → Except EvalErr (Nat × Nat × Nat)
  | [], acc => Except.ok acc
  | b :: rest, (t1, t5, tot) =>
    let images := to_var b.1 u
    let labels := to_var b.2 u
    let output := modelOutput m p images
    let tot := tot + labels.length
    match batchMax m.classCount output with
    | Except.error er => Except.error er
    | Except.ok top1 =>
      let t1 := t1 + countEq (squeeze labels) top1
      match batchTopk m.classCount output with
      | Except.error er => Except.error er
      | Except.ok top5 =>
        let t5 := t5 + countIn5 labels top5
        evalBatches u m p rest (t1, t5, tot)

/-- `Solver.eval`: runs the batch loop, then performs the final
`top_1_correct.item()`; on an empty data loader that accumulator is still the
Python int `0`, so the call raises `AttributeError`. -/
def eval (u : Bool) (m : ModelSpec) (p : Params) (dl : List (Tensor × Tensor)) :
    Except EvalErr (Nat × Nat × Nat) :=
  match evalBatches u m p dl (0, 0, 0) with
  | Except.error er => Except.error er
  | Except.ok r =>
    if dl.isEmpty then Except.error EvalErr.itemOnPlainInt else Except.ok r

end Solver

/-- Per-batch top-1 correct count, as a pure reference function. -/
def batchTop1 (m : ModelSpec) (p : Params) (images labels : Tensor) : Nat :=
  countEq (squeeze labels) ((modelOutput m p images).map torchMaxIdx)

/-- Per-batch top-5 correct count, as a pure reference function. -/
def batchTop5 (m : ModelSpec) (p : Params) (images labels : Tensor) : Nat :=
  countIn5 labels ((modelOutput m p images).map (topkIdx 5))

/-- Division-free reference value of the evaluator's three counters, starting
from a given accumulator. -/
def evalCountsFrom (m : ModelSpec) (p : Params)
    (dl : List (Tensor × Tensor)) (acc : Nat × Nat × Nat) : Nat × Nat × Nat :=
  dl.foldl
    (fun a b =>
      (a.1 + batchTop1 m p b.1 b.2, a.2.1 + batchTop5 m p b.1 b.2, a.2.2 + b.2.length))
    acc

/-- Division-free reference value of `(top-1 count, top-5 count, total)`. -/
def evalCounts (m : ModelSpec) (p : Params) (dl : List (Tensor × Tensor)) :
    Nat × Nat × Nat :=
  evalCountsFrom m p dl (0, 0, 0)

/-- Total number of examples in a data loader (sum of label-batch sizes). -/
def totalLabels (dl : List (Tensor × Tensor)) : Nat :=
  (dl.map fun b => b.2.length).sum

/-- The run configuration consumed by `Solver` (the fields the embedded
methods read; purely numeric hyperparameters such as `lr` and `momentum` are
only forwarded to the external optimizer and are folded into `StepFns`).
`pretrained_model = none` stands for both Python `None` and any other falsy
value of the option. -/
structure Config where
  num_epochs : Nat
  loss_log_step : Nat
  model_save_step : Nat
  train_eval_step : Nat
  pretrained_model : Option String
  use_gpu : Bool
  model_save_path : String
deriving DecidableEq

/-- The framework-side pieces of one optimization step:
`criterion` is `nn.CrossEntropyLoss()` applied to the forward output and the
(squeezed) label tensor, and `update` is the combined effect of
`loss.backward()` followed by `optimizer.step()` on the parameters (which is
a function of the current parameters and the step's two input tensors). -/
structure StepFns where
  criterion : List (List Int) → Tensor → Int
  update : Params → Tensor → Tensor → Params

/-- `Solver.model_step(images, labels)`: zero the gradients, forward pass,
loss against `labels.squeeze()`, backward pass, parameter update; returns the
loss (the gradient bookkeeping of `zero_grad`/`backward` has no observable
effect beyond the parameter update and is folded into `update`). -/
def model_step (m : ModelSpec) (F : StepFns) (p : Params) (images labels : Tensor) :
    Params × Int :=
  let output := modelOutput m (p) images
  let loss := F.criterion output (squeeze labels)
  (F.update p images labels, loss)

/-- The body of the inner batch loop of `Solver.train` (lines 143-147):
`images = to_var(images, use_gpu)` and then `labels = to_var(images, use_gpu)`
— the source converts the (already converted) image batch a second time and
binds the result to `labels`, discarding the label batch `b.2`. -/
def stepBatch (m : ModelSpec) (F : StepFns) (u : Bool) (p : Params)
    (b : Tensor × Tensor) : Params × Int :=
  let images := to_var b.1 u
  let labels := to_var images u
  model_step m F p images labels

/-- Folds the optimization step over a list of batches (parameters only). -/
def stepMany (m : ModelSpec) (F : StepFns) (u : Bool) (p : Params)
    (bs : List (Tensor × Tensor)) : Params :=
  bs.foldl (fun q b => (stepBatch m F u q b).1) p

/-- One epoch of the inner batch loop: returns the updated parameters and,
when at least one batch was processed, the final batch's `(i, loss)` pair
(the values of the loop variables `i` and `loss` after the loop). -/
def runEpoch (m : ModelSpec) (F : StepFns) (u : Bool) (p : Params)
    (i : Nat) : List (Tensor × Tensor) → Params × Option (Nat × Int)
  | [] => (p, none)
  | b :: rest =>
    let r := stepBatch m F u p b
    match runEpoch m F u r.1 (i + 1) rest with
    | (q, none) => (q, some (i, r.2))
    | (q, some l) => (q, some l)

/-- Reference value of the loss retained after one epoch: the loss of the
optimization step on the final batch, taken at the parameters reached after
all earlier batches. -/
def refEpochLoss (m : ModelSpec) (F : StepFns) (u : Bool) (p : Params)
    (dl : List (Tensor × Tensor)) : Int :=
  match dl.getLast? with
  | none => 0
  | some b => (stepBatch m F u (stepMany m F u p dl.dropLast) b).2

/-- Parameters reached after `k` full epochs of the batch loop. -/
def paramsAfter (m : ModelSpec) (F : StepFns) (u : Bool)
    (dl : List (Tensor × Tensor)) (p0 : Params) : Nat → Params
  | 0 => p0
  | k + 1 => stepMany m F u (paramsAfter m F u dl p0 k) dl

/-- `os.path.join` for a directory and a relative file name. -/
def pathJoin (a b : String) : String := a ++ "/" ++ b

/-- The checkpoint name format `'\x7b\x7d_\x7b\x7d_\x7b\x7d'.format(version, e + 1, i + 1)`:
epoch and iteration indices are stored 1-based. -/
def checkpointName (version : String) (e i : Nat) : String :=
  version ++ "_" ++ toString (e + 1) ++ "_" ++ toString (i + 1)

/-- The file written by `Solver.save_model(e, i)`. -/
def savePath (cfg : Config) (version : String) (e i : Nat) : String :=
  pathJoin cfg.model_save_path (checkpointName version e i ++ ".pth")

/-- The file read by `Solver.load_pretrained_model` for a given identifier. -/
def loadPath (cfg : Config) (ident : String) : String :=
  pathJoin cfg.model_save_path (ident ++ ".pth")

/-- The file system seen by the checkpoint store: file name ↦ serialized
parameter snapshot (serialization with `torch.save`/`torch.load` is
value-faithful, so a snapshot is just a `Params`). -/
abbrev Store := String → Option Params

namespace Solver

/-- `Solver.save_model(e, i)`: serialize the current parameters under
`model_save_path/version_(e+1)_(i+1).pth`. -/
def save_model (cfg : Config) (version : String) (e i : Nat) (p : Params)
    (st : Store) : Store :=
  fun q => if q = savePath cfg version e i then some p else st q

/-- `Solver.load_pretrained_model`: read
`model_save_path/pretrained_model.pth` and replace the model parameters with
its contents (`none` when the file does not exist). -/
def load_pretrained_model (cfg : Config) (ident : String) (st : Store) :
    Option Params :=
  st (loadPath cfg ident)

end Solver

/-- Failures the training loop can raise. -/
inductive TrainErr
  | valueError
  | nameErrorLoss
  | zeroModulo
  | evalFailed (e : EvalErr)
  | zeroDivision
deriving DecidableEq

/-- Python's `str.split('_')`, on the character list of the string: splits at
every underscore, keeping empty tokens (`''.split('_') == ['']`). -/
def splitUnderscore : List Char → List (List Char)
  | [] => [[]]
  | c :: cs =>
    let r := splitUnderscore cs
    if c = '_' then [] :: r
    else
      match r with
      | [] => [[c]]
      | t :: ts => (c :: t) :: ts

/-- Decimal accumulation for `int(...)`. -/
def parseDecimalAux : List Char → Nat → Option Nat
  | [], acc => some acc
  | c :: cs, acc =>
    if c.isDigit then parseDecimalAux cs (acc * 10 + (c.toNat - 48)) else none

/-- Python's `int(token)` for the plain decimal spellings that occur in
checkpoint identifiers (`none` when `int` would raise `ValueError`; the
further spellings `int` accepts — signs, surrounding whitespace, digit-group
underscores — do not occur in checkpoint names). -/
def parseDecimal : List Char → Option Nat
  | [] => none
  | cs => parseDecimalAux cs 0

/-- `int(pretrained_model.split('_')[0])`: the leading underscore-delimited
token of the identifier, parsed as a decimal number. -/
def parseResumeEpoch (s : String) : Option Nat :=
  parseDecimal ((splitUnderscore s.data).headD [])

/-- Lines 134-138 of `Solver.train`: the resume epoch is parsed from the
pretrained identifier when one is set (Python truthiness: `None` and the
empty string both fall back to 0). -/
def startEpoch (cfg : Config) : Except TrainErr Nat :=
  match cfg.pretrained_model with
  | none => Except.ok 0
  | some s =>
    if s.isEmpty then Except.ok 0
    else
      match parseResumeEpoch s with
      | some n => Except.ok n
      | none => Except.error TrainErr.valueError

/-- `range(start, num_epochs)`. -/
def epochList (start numEpochs : Nat) : List Nat :=
  List.range' start (numEpochs - start)

/-- Observable state accumulated by `Solver.train`: the model parameters, the
number of optimization steps performed, the `self.losses` metrics log, the
1-indexed epochs at which the loss log was printed, the checkpoint files
written, and the `self.top_1_acc` / `self.top_5_acc` metrics logs. -/
structure TrainResult where
  params : Params
  stepCount : Nat
  losses : List (Nat × Int)
  printedLoss : List Nat
  saved : List String
  top1 : List (Nat × ℚ)
  top5 : List (Nat × ℚ)
deriving DecidableEq

/-- The state of `Solver.train` just after the `self.losses = []` /
`self.top_1_acc = []` / `self.top_5_acc = []` resets. -/
def initResult (p0 : Params) : TrainResult :=
  { params := p0, stepCount := 0, losses := [], printedLoss := [], saved := []
    top1 := [], top5 := [] }

namespace Solver

/-- `Solver.train_evaluate(e)`: runs `eval` on the training data loader and
returns `(top_1_correct / total, top_5_correct / total)` (Python float
division, idealized as rational division; dividing by a zero total raises). -/
def train_evaluate (u : Bool) (m : ModelSpec) (p : Params)
    (dl : List (Tensor × Tensor)) : Except TrainErr (ℚ × ℚ) :=
  match Solver.eval u m p dl with
  | Except.error er => Except.error (TrainErr.evalFailed er)
  | Except.ok r =>
    if r.2.2 = 0 then Except.error TrainErr.zeroDivision
    else Except.ok ((r.1 : ℚ) / (r.2.2 : ℚ), (r.2.1 : ℚ) / (r.2.2 : ℚ))

/-- Lines 150-152 of `Solver.train`: the loss-log trigger.  A `% 0` raises
`ZeroDivisionError`; referencing the loop variables `i` / `loss` after an
empty batch loop raises `NameError`. -/
def logLossStep (cfg : Config) (e : Nat) (last : Option (Nat × Int))
    (st : TrainResult) : Except TrainErr TrainResult :=
  if cfg.loss_log_step = 0 then Except.error TrainErr.zeroModulo
  else if (e + 1) % cfg.loss_log_step = 0 then
    match last with
    | none => Except.error TrainErr.nameErrorLoss
    | some il =>
      Except.ok { st with printedLoss := st.printedLoss ++ [e + 1]
                          losses := st.losses ++ [(e, il.2)] }
  else Except.ok st

/-- Lines 155-156 of `Solver.train`: the checkpoint-save trigger. -/
def saveStep (cfg : Config) (version : String) (e : Nat)
    (last : Option (Nat × Int)) (st : TrainResult) : Except TrainErr TrainResult :=
  if cfg.model_save_step = 0 then Except.error TrainErr.zeroModulo
  else if (e + 1) % cfg.model_save_step = 0 then
    match last with
    | none => Except.error TrainErr.nameErrorLoss
    | some il =>
      Except.ok { st with saved := st.saved ++ [savePath cfg version e il.1] }
  else Except.ok st

/-- Lines 159-162 of `Solver.train`: the train-evaluation trigger. -/
def evalStep (m : ModelSpec) (cfg : Config) (dl : List (Tensor × Tensor))
    (e : Nat) (st : TrainResult) : Except TrainErr TrainResult :=
  if cfg.train_eval_step = 0 then Except.error TrainErr.zeroModulo
  else if (e + 1) % cfg.train_eval_step = 0 then
    match train_evaluate cfg.use_gpu m st.params dl with
    | Except.error er => Except.error er
    | Except.ok acc =>
      Except.ok { st with top1 := st.top1 ++ [(e, acc.1)]
                          top5 := st.top5 ++ [(e, acc.2)] }
  else Except.ok st

/-- The body of the epoch loop of `Solver.train` (lines 143-162): run all
batches, then the three `(e + 1) % step == 0` triggers in source order. -/
def epochStep (m : ModelSpec) (F : StepFns) (cfg : Config) (version : String)
    (dl : List (Tensor × Tensor)) (st : TrainResult) (e : Nat) :
    Except TrainErr TrainResult :=
  let r := runEpoch m F cfg.use_gpu st.params 0 dl
  let st1 := { st with params := r.1, stepCount := st.stepCount + dl.length }
  match logLossStep cfg e r.2 st1 with
  | Except.error er => Except.error er
  | Except.ok st2 =>
    match saveStep cfg version e r.2 st2 with
    | Except.error er => Except.error er
    | Except.ok st3 => evalStep m cfg dl e st3

/-- The epoch loop of `Solver.train`, over the epoch indices of
`range(start, num_epochs)`. -/
def trainLoop (m : ModelSpec) (F : StepFns) (cfg : Config) (version : String)
    (dl : List (Tensor × Tensor)) : List Nat → TrainResult → Except TrainErr TrainResult
  | [], st => Except.ok st
  | e :: es, st =>
    match epochStep m F cfg version dl st e with
    | Except.error er => Except.error er
    | Except.ok st' => trainLoop m F cfg version dl es st'

/-- `Solver.train`: reset the metrics logs, compute the start epoch, then run
the epoch loop over `range(start, num_epochs)`. -/
def train (m : ModelSpec) (F : StepFns) (cfg : Config) (version : String)
    (dl : List (Tensor × Tensor)) (p0 : Params) : Except TrainErr TrainResult :=
  match startEpoch cfg with
  | Except.error er => Except.error er
  | Except.ok start =>
    trainLoop m F cfg version dl (epochList start cfg.num_epochs) (initResult p0)

end Solver

/-- Pure description of the state reached after one successful epoch of the
training loop: parameters advance by one pass of optimization steps, the step
count grows by the number of batches, and each trigger whose interval divides
`e + 1` appends its record. -/
def afterEpoch (m : ModelSpec) (F : StepFns) (cfg : Config) (version : String)
    (dl : List (Tensor × Tensor)) (st : TrainResult) (e : Nat) : TrainResult :=
  let u := cfg.use_gpu
  let p' := stepMany m F u st.params dl
  let L := refEpochLoss m F u st.params dl
  let acc := evalCounts m p' dl
  { params := p'
    stepCount := st.stepCount + dl.length
    losses := st.losses ++ (if (e + 1) % cfg.loss_log_step = 0 then [(e, L)] else [])
    printedLoss :=
      st.printedLoss ++ (if (e + 1) % cfg.loss_log_step = 0 then [e + 1] else [])
    saved :=
      st.saved ++
        (if (e + 1) % cfg.model_save_step = 0 then [savePath cfg version e (dl.length - 1)] else [])
    top1 :=
      st.top1 ++
        (if (e + 1) % cfg.train_eval_step = 0 then [(e, (acc.1 : ℚ) / (acc.2.2 : ℚ))] else [])
    top5 :=
      st.top5 ++
        (if (e + 1) % cfg.train_eval_step = 0 then [(e, (acc.2.1 : ℚ) / (acc.2.2 : ℚ))] else []) }

/-- The loss-log line built at lines 98-108 of `solver.py`.  The Python
source splits the template across two adjacent string literals,
`"Elapsed ... Iter [../..],"` and `"loss: ..."`, which concatenate with no
space in between.  The elapsed/epoch/total time arguments are the already
rendered `str(datetime.timedelta(...))` strings and `loss4` is the already
rendered `'.4f'` formatting of the loss. -/
def print_loss_log_line (elapsed epochTime totalTime : String)
    (e numEpochs i itersPerEpoch : Nat) (loss4 : String) : String :=
  "Elapsed " ++ elapsed ++ "/" ++ epochTime ++ " -- " ++ totalTime ++
    ", Epoch [" ++ toString (e + 1) ++ "/" ++ toString numEpochs ++
    "] Iter [" ++ toString (i + 1) ++ "/" ++ toString itersPerEpoch ++
    "]," ++ "loss: " ++ loss4

/-- The evaluation line printed by `Solver.test` (lines 206-209), with the
accuracies already rendered in `'.4f'` form. -/
def test_log_line (top1 top5 : String) : String :=
  "top_1_acc: " ++ top1 ++ "--top_5_acc: " ++ top5

/-- The evaluation line printed by `Solver.train_evaluate` (lines 192-197). -/
def train_evaluate_log_line (e numEpochs : Nat) (top1 top5 : String) : String :=
  "Epoch [" ++ toString (e + 1) ++ "/" ++ toString numEpochs ++ "]--top_1_acc: " ++
    top1 ++ "--top_5_acc: " ++ top5

/-- Modelled from the spec's words (claim C9): the claimed loss-log template,
`Elapsed el/et -- tt, Epoch [e/n] Iter [i/ipe], loss: l` — with a space
between the comma and `loss:`. -/
def claimedLossLogLine (elapsed epochTime totalTime : String)
    (e numEpochs i itersPerEpoch : Nat) (loss4 : String) : String :=
  "Elapsed " ++ elapsed ++ "/" ++ epochTime ++ " -- " ++ totalTime ++
    ", Epoch [" ++ toString (e + 1) ++ "/" ++ toString numEpochs ++
    "] Iter [" ++ toString (i + 1) ++ "/" ++ toString itersPerEpoch ++
    "], loss: " ++ loss4

/-- Modelled from the spec's words (claim C7): a saved checkpoint file is
named `version_(epoch+1)_(iteration+1).pth`, indices 1-based. -/
def specCheckpointFile (version : String) (epoch iteration : Nat) : String :=
  version ++ "_" ++ toString (epoch + 1) ++ "_" ++ toString (iteration + 1) ++ ".pth"

/-! Small concrete instances used to evaluate the embedding at specific
inputs. -/

/-- A 5-class model whose score is 1 exactly on the class matching the image
value. -/
def exModel5 : ModelSpec :=
  ⟨5, fun _ img c => if (c : Int) = img then 1 else 0⟩

/-- A 3-class model (fewer than the 5 classes `torch.topk(k=5)` needs). -/
def exModel3 : ModelSpec :=
  ⟨3, fun _ _ _ => 0⟩

/-- Step functions whose loss is the first entry of the (squeezed) label
tensor and whose parameter update is the identity. -/
def exSteps : StepFns :=
  ⟨fun _ t => t.headD 0, fun p _ _ => p⟩

def exParams : Params := [0]

/-- A one-batch data loader whose single example is classified correctly. -/
def exLoader : List (Tensor × Tensor) := [([3], [3])]

/-- A data loader with one batch in which the image and label tensors differ. -/
def exLoaderBug : List (Tensor × Tensor) := [([7], [2])]

/-- A configuration matching claim C8: 10 epochs, loss log every 2 epochs, no
pretrained model. -/
def exConfig : Config :=
  ⟨10, 2, 1, 1, none, false, "models"⟩

/-- A configuration resuming from checkpoint identifier `5_120_40`. -/
def exConfigResume : Config :=
  ⟨7, 1, 1, 1, some "5_120_40", false, "models"⟩

/-- A configuration whose resume epoch (from identifier `3_1_1`) equals its
total epoch count. -/
def exConfigDone : Config :=
  ⟨3, 1, 1, 1, some "3_1_1", false, "models"⟩

end VGG

namespace VGG

/-- C1: the claim says each optimization step computes the loss of the output
against the label batch.  The code does not: line 145 of `solver.py` rebinds
`labels` to `to_var(images, ...)`, so `model_step` always receives the image
batch in the `labels` position, and on a batch whose label tensor differs
from its image tensor the computed loss differs from the loss against the
labels.  With the concrete step functions `exSteps` (whose loss is the first
label entry), the batch `([7], [2])` yields loss 7 — the loss against the
image batch — while the loss against the label batch would be 2. -/
theorem claim1_loss_computed_against_image_batch :
    (∀ (m : ModelSpec) (F : StepFns) (u : Bool) (p : Params) (b : Tensor × Tensor),
        stepBatch m F u p b = model_step m F p b.1 b.1) ∧
    (stepBatch exModel5 exSteps false exParams ([7], [2])).2 = 7 ∧
    (model_step exModel5 exSteps exParams [7] [2]).2 = 2 :=
  ⟨fun _ _ _ _ _ => rfl, rfl, rfl⟩

/-- C3: with the pretrained identifier `5_120_40` (stored as file
`5_120_40.pth`), the resume epoch is the leading underscore-delimited token,
5, and the epoch loop then covers exactly the epochs `5 ≤ e < num_epochs`. -/
theorem claim3_resume_epoch_from_identifier (cfg : Config)
    (h : cfg.pretrained_model = some "5_120_40") :
    startEpoch cfg = Except.ok 5 ∧
    loadPath cfg "5_120_40" = pathJoin cfg.model_save_path "5_120_40.pth" ∧
    ∀ e : Nat, e ∈ epochList 5 cfg.num_epochs ↔ 5 ≤ e ∧ e < cfg.num_epochs := by
  refine ⟨?_, rfl, ?_⟩
  · unfold startEpoch
    rw [h]
    rfl
  · intro e
    unfold epochList
    rw [List.mem_range'_1]
    omega

/-- Witness for C3 at the concrete configuration `exConfigResume`
(`num_epochs = 7`, pretrained identifier `5_120_40`). -/
theorem claim3_resume_epoch_from_identifier_witness :
    exConfigResume.pretrained_model = some "5_120_40" ∧
    startEpoch exConfigResume = Except.ok 5 ∧
    loadPath exConfigResume "5_120_40" =
      pathJoin exConfigResume.model_save_path "5_120_40.pth" ∧
    (6 ∈ epochList 5 exConfigResume.num_epochs ↔
      5 ≤ 6 ∧ 6 < exConfigResume.num_epochs) :=
  ⟨rfl, (claim3_resume_epoch_from_identifier exConfigResume rfl).1,
    (claim3_resume_epoch_from_identifier exConfigResume rfl).2.1,
    (claim3_resume_epoch_from_identifier exConfigResume rfl).2.2 6⟩

/-- C4: saving a checkpoint for `(version, e, i)` and loading with the
identifier that names that same file — `checkpointName version e i` — with no
intervening store or model modification restores exactly the saved parameter
values. -/
theorem claim4_save_load_roundtrip (cfg : Config) (version : String) (e i : Nat)
    (p : Params) (st : Store) :
    Solver.load_pretrained_model cfg (checkpointName version e i)
      (Solver.save_model cfg version e i p st) = some p := by
  unfold Solver.load_pretrained_model Solver.save_model
  simp [loadPath, savePath]

/-- C5: when the resume start epoch equals the configured total epoch count,
`range(start, num_epochs)` is empty, so `train` performs no optimization
steps and returns with the model parameters unchanged (`stepCount = 0`,
`params = p0`, and all metric logs empty). -/
theorem claim5_zero_epochs_no_steps (m : ModelSpec) (F : StepFns) (cfg : Config)
    (version : String) (dl : List (Tensor × Tensor)) (p0 : Params)
    (h : startEpoch cfg = Except.ok cfg.num_epochs) :
    Solver.train m F cfg version dl p0 = Except.ok (initResult p0) ∧
    (initResult p0).params = p0 ∧ (initResult p0).stepCount = 0 := by
  refine ⟨?_, rfl, rfl⟩
  unfold Solver.train
  rw [h]
  show Solver.trainLoop m F cfg version dl
      (epochList cfg.num_epochs cfg.num_epochs) (initResult p0) =
    Except.ok (initResult p0)
  unfold epochList
  rw [Nat.sub_self]
  rfl

/-- Witness for C5 at `exConfigDone`, whose pretrained identifier `3_1_1`
yields resume epoch 3 = `num_epochs`. -/
theorem claim5_zero_epochs_no_steps_witness :
    startEpoch exConfigDone = Except.ok exConfigDone.num_epochs ∧
    (Solver.train exModel5 exSteps exConfigDone "vgg" exLoader exParams =
        Except.ok (initResult exParams) ∧
      (initResult exParams).params = exParams ∧
      (initResult exParams).stepCount = 0) :=
  ⟨rfl, claim5_zero_epochs_no_steps exModel5 exSteps exConfigDone "vgg" exLoader
    exParams rfl⟩

/-- C7: the checkpoint written by `save_model(e, i)` is exactly
`model_save_path/version_(e+1)_(i+1).pth`, with 1-based epoch and iteration
indices; concretely, version `vgg` with `e = 4`, `i = 119` is stored as
`models/vgg_5_120.pth`. -/
theorem claim7_checkpoint_file_name :
    (∀ (cfg : Config) (version : String) (e i : Nat),
        savePath cfg version e i =
          pathJoin cfg.model_save_path (specCheckpointFile version e i)) ∧
    savePath exConfig "vgg" 4 119 = "models/vgg_5_120.pth" :=
  ⟨fun _ _ _ _ => rfl, by decide⟩

/-- C9, counterexample: the loss-log line does NOT have a space between the
comma and `loss:` — the Python template is split across two adjacent string
literals, `"... Iter [../..],"` and `"loss: ..."`, which concatenate with no
separator — and the evaluation line printed during training is not of the
bare form `top_1_acc: ...--top_5_acc: ...` either: `train_evaluate` prefixes
it with `Epoch [e/num]--`. -/
theorem claim9_log_format_counterexample :
    print_loss_log_line "0:00:01" "0:00:02" "0:00:03" 0 10 0 100 "0.5000" ≠
      claimedLossLogLine "0:00:01" "0:00:02" "0:00:03" 0 10 0 100 "0.5000" ∧
    train_evaluate_log_line 0 10 "0.1000" "0.2000" ≠
      test_log_line "0.1000" "0.2000" := by
  constructor
  · decide
  · decide

/-- C9, amended: every periodic loss-log line has exactly the form
`Elapsed el/et -- tt, Epoch [e/n] Iter [i/ipe],loss: l` — with NO space
between the comma and `loss:`; the evaluation line of `test` is exactly
`top_1_acc: t1--top_5_acc: t5`, while the evaluation line printed by
`train_evaluate` is that same form prefixed with `Epoch [e/n]--`. -/
theorem claim9_log_format_amended (elapsed epochTime totalTime : String)
    (e n i ipe : Nat) (loss4 top1s top5s : String) :
    print_loss_log_line elapsed epochTime totalTime e n i ipe loss4 =
      "Elapsed " ++ elapsed ++ "/" ++ epochTime ++ " -- " ++ totalTime ++
        ", Epoch [" ++ toString (e + 1) ++ "/" ++ toString n ++ "] Iter [" ++
        toString (i + 1) ++ "/" ++ toString ipe ++ "],loss: " ++ loss4 ∧
    test_log_line top1s top5s = "top_1_acc: " ++ top1s ++ "--top_5_acc: " ++ top5s ∧
    train_evaluate_log_line e n top1s top5s =
      "Epoch [" ++ toString (e + 1) ++ "/" ++ toString n ++ "]--" ++
        test_log_line top1s top5s := by
  refine ⟨?_, rfl, ?_⟩
  · unfold print_loss_log_line
    rw [show ("],loss: " : String) = "]," ++ "loss: " from rfl]
    simp only [String.append_assoc]
  · unfold train_evaluate_log_line test_log_line
    rw [show ("]--top_1_acc: " : String) = "]--" ++ "top_1_acc: " from rfl]
    simp only [String.append_assoc]

lemma pickMax_eq_some (l : List (Nat × Int)) (h : l ≠ []) :
    ∃ q rem, pickMax l = some (q, rem) := by
  cases l with
  | nil => exact absurd rfl h
  | cons p rest =>
    unfold pickMax
    cases hr : pickMax rest with
    | none => exact ⟨p, [], rfl⟩
    | some qr =>
      by_cases hgt : qr.1.2 > p.2
      · exact ⟨qr.1, p :: qr.2, by simp [hgt]⟩
      · exact ⟨p, rest, by simp [hgt]⟩

lemma withIdx_ne_nil (i : Nat) (row : List Int) (h : row ≠ []) :
    withIdx i row ≠ [] := by
  cases row with
  | nil => exact absurd rfl h
  | cons x xs => simp [withIdx]

/-- For a nonzero `k`, the first index `torch.topk` returns is the argmax
index returned by `torch.max`. -/
lemma topkIdx_head (k : Nat) (row : List Int) (hk : k ≠ 0) (h : row ≠ []) :
    ∃ t, topkIdx k row = torchMaxIdx row :: t := by
  obtain ⟨q, rem, hq⟩ := pickMax_eq_some (withIdx 0 row) (withIdx_ne_nil 0 row h)
  cases k with
  | zero => exact absurd rfl hk
  | succ k => exact ⟨topkAux k rem, by simp [topkIdx, topkAux, torchMaxIdx, hq]⟩

/-- Headwise, a top-1 hit is a top-5 hit, so the top-1 tally never exceeds
the top-5 tally. -/
lemma countEq_le_countIn5 (ls : Tensor) (rows : List (List Int))
    (h : ∀ r ∈ rows, r ≠ []) :
    countEq ls (rows.map torchMaxIdx) ≤ countIn5 ls (rows.map (topkIdx 5)) := by
  induction rows generalizing ls with
  | nil => cases ls <;> simp [countEq, countIn5]
  | cons r rs ih =>
    cases ls with
    | nil => simp [countEq, countIn5]
    | cons l ls =>
      simp only [List.map_cons, countEq, countIn5]
      refine Nat.add_le_add ?_ (ih ls fun x hx => h x (List.mem_cons_of_mem _ hx))
      by_cases hl : l = (torchMaxIdx r : Int)
      · obtain ⟨t, ht⟩ := topkIdx_head 5 r (by decide) (h r (List.mem_cons_self r rs))
        rw [ht]
        simp [hl]
      · simp [hl]

/-- Every row of a forward-pass output has `classCount` entries. -/
lemma modelOutput_rows_ne (m : ModelSpec) (p : Params) (images : Tensor)
    (h5 : 5 ≤ m.classCount) : ∀ r ∈ modelOutput m p images, r ≠ [] := by
  intro r hr
  simp only [modelOutput, List.mem_map] at hr
  obtain ⟨img, _, rfl⟩ := hr
  apply List.ne_nil_of_length_pos
  simp only [List.length_map, List.length_range]
  omega

/-- Invariant of the evaluator's batch loop: if the top-1 accumulator starts
no larger than the top-5 accumulator, that stays true on success. -/
lemma evalBatches_ok_le (u : Bool) (m : ModelSpec) (p : Params) :
    ∀ (dl : List (Tensor × Tensor)) (a b c x y z : Nat),
      Solver.evalBatches u m p dl (a, b, c) = Except.ok (x, y, z) →
      a ≤ b → x ≤ y := by
  intro dl
  induction dl with
  | nil =>
    intro a b c x y z h hab
    simp only [Solver.evalBatches, Except.ok.injEq, Prod.mk.injEq] at h
    omega
  | cons bb rest ih =>
    intro a b c x y z h hab
    by_cases h0 : m.classCount = 0
    · simp [Solver.evalBatches, batchMax, h0] at h
    · by_cases h5 : m.classCount < 5
      · simp [Solver.evalBatches, batchMax, batchTopk, h0, h5] at h
      · simp only [Solver.evalBatches, batchMax, batchTopk, if_neg h0, if_neg h5,
          squeeze] at h
        refine ih _ _ _ _ _ _ h ?_
        have hcount :=
          countEq_le_countIn5 (to_var bb.2 u) (modelOutput m p (to_var bb.1 u))
            (modelOutput_rows_ne m p (to_var bb.1 u) (by omega))
        omega

/-- C2: whenever `eval` returns a triple, the top-5 correct count is at least
the top-1 correct count: whenever the highest-scoring class equals the label,
that class is also the first of the five classes `torch.topk` returns. -/
theorem claim2_top5_count_ge_top1_count (u : Bool) (m : ModelSpec) (p : Params)
    (dl : List (Tensor × Tensor)) (t : Nat × Nat × Nat)
    (h : Solver.eval u m p dl = Except.ok t) : t.1 ≤ t.2.1 := by
  unfold Solver.eval at h
  cases hb : Solver.evalBatches u m p dl (0, 0, 0) with
  | error er => rw [hb] at h; cases h
  | ok r =>
    rw [hb] at h
    by_cases he : dl.isEmpty
    · simp [he] at h
    · simp only [he, if_neg, Bool.false_eq_true, if_false, Except.ok.injEq] at h
      obtain ⟨x, y, z⟩ := r
      cases h
      exact evalBatches_ok_le u m p dl 0 0 0 x y z hb (Nat.le_refl 0)

/-- Witness for C2: on the one-batch loader `exLoader` the evaluator returns
`(1, 1, 1)`, and indeed `1 ≤ 1`. -/
theorem claim2_top5_count_ge_top1_count_witness :
    Solver.eval false exModel5 exParams exLoader = Except.ok (1, 1, 1) ∧
    ((1, 1, 1) : Nat × Nat × Nat).1 ≤ ((1, 1, 1) : Nat × Nat × Nat).2.1 :=
  ⟨rfl, claim2_top5_count_ge_top1_count false exModel5 exParams exLoader (1, 1, 1) rfl⟩

/-- C10: the evaluator unconditionally calls `torch.topk(output, k=5)`, so on
a model with fewer than 5 classes `eval` fails on every non-empty data
source — in the top-5 computation when the model has at least one class, and
already in the top-1 `torch.max` reduction for a zero-class model. -/
theorem claim10_eval_needs_five_classes (u : Bool) (m : ModelSpec) (p : Params)
    (dl : List (Tensor × Tensor)) (h : m.classCount < 5) (hne : dl ≠ []) :
    Solver.eval u m p dl =
      Except.error
        (if m.classCount = 0 then EvalErr.maxEmptyDim else EvalErr.topkOutOfRange) := by
  cases dl with
  | nil => exact absurd rfl hne
  | cons b rest =>
    by_cases h0 : m.classCount = 0
    · simp [Solver.eval, Solver.evalBatches, batchMax, h0]
    · simp [Solver.eval, Solver.evalBatches, batchMax, batchTopk, h0, h]

/-- Witness for C10 at the 3-class model `exModel3` and the non-empty loader
`exLoader`. -/
theorem claim10_eval_needs_five_classes_witness :
    exModel3.classCount < 5 ∧ exLoader ≠ [] ∧
    Solver.eval false exModel3 exParams exLoader =
      Except.error
        (if exModel3.classCount = 0 then EvalErr.maxEmptyDim
         else EvalErr.topkOutOfRange) :=
  ⟨by decide, by simp [exLoader],
    claim10_eval_needs_five_classes false exModel3 exParams exLoader (by decide)
      (by simp [exLoader])⟩

/-- On a model with at least 5 classes the batch loop always succeeds and
returns exactly the division-free reference counts. -/
lemma evalBatches_counts (u : Bool) (m : ModelSpec) (p : Params)
    (h5 : 5 ≤ m.classCount) :
    ∀ (dl : List (Tensor × Tensor)) (acc : Nat × Nat × Nat),
      Solver.evalBatches u m p dl acc = Except.ok (evalCountsFrom m p dl acc) := by
  intro dl
  induction dl with
  | nil => intro acc; rfl
  | cons b rest ih =>
    intro acc
    obtain ⟨a, b1, c⟩ := acc
    have h0 : ¬m.classCount = 0 := by omega
    have hlt : ¬m.classCount < 5 := by omega
    simp only [Solver.evalBatches, batchMax, batchTopk, if_neg h0, if_neg hlt,
      evalCountsFrom, List.foldl_cons]
    exact ih _

/-- C6, counterexample: on an empty data source `eval` does not return the
triple of counts — the final `top_1_correct.item()` is called on the plain
Python int `0` and raises `AttributeError` (though indeed not a division by
zero). -/
theorem claim6_eval_no_division_counterexample :
    Solver.eval false exModel5 exParams [] = Except.error EvalErr.itemOnPlainInt := rfl

/-- C6, amended: `eval` performs no division — on every non-empty data source
(for a model with the required 5 classes) it returns exactly the triple of
pure counts `(top-1 correct, top-5 correct, total)`, any accuracy division
being its callers' doing — but on an empty data source `eval` itself fails:
not by dividing by zero, but with an `AttributeError` from calling `.item()`
on the top-1 accumulator, which is still a plain Python int. -/
theorem claim6_eval_no_division_amended (u : Bool) (m : ModelSpec) (p : Params)
    (dl : List (Tensor × Tensor)) (h5 : 5 ≤ m.classCount) (hne : dl ≠ []) :
    Solver.eval u m p dl = Except.ok (evalCounts m p dl) ∧
    Solver.eval u m p [] = Except.error EvalErr.itemOnPlainInt := by
  constructor
  · unfold Solver.eval
    rw [evalBatches_counts u m p h5 dl (0, 0, 0)]
    cases dl with
    | nil => exact absurd rfl hne
    | cons b rest => rfl
  · rfl

/-- Witness for C6 (amended) at `exModel5` and the non-empty `exLoader`. -/
theorem claim6_eval_no_division_amended_witness :
    5 ≤ exModel5.classCount ∧ exLoader ≠ [] ∧
    (Solver.eval false exModel5 exParams exLoader =
        Except.ok (evalCounts exModel5 exParams exLoader) ∧
      Solver.eval false exModel5 exParams [] =
        Except.error EvalErr.itemOnPlainInt) :=
  ⟨by decide, by simp [exLoader],
    claim6_eval_no_division_amended false exModel5 exParams exLoader (by decide)
      (by simp [exLoader])⟩

lemma stepMany_cons (m : ModelSpec) (F : StepFns) (u : Bool) (p : Params)
    (b : Tensor × Tensor) (bs : List (Tensor × Tensor)) :
    stepMany m F u p (b :: bs) = stepMany m F u (stepBatch m F u p b).1 bs := rfl

lemma runEpoch_fst (m : ModelSpec) (F : StepFns) (u : Bool) :
    ∀ (dl : List (Tensor × Tensor)) (p : Params) (i : Nat),
      (runEpoch m F u p i dl).1 = stepMany m F u p dl := by
  intro dl
  induction dl with
  | nil => intro p i; rfl
  | cons b rest ih =>
    intro p i
    rw [stepMany_cons]
    simp only [runEpoch]
    cases hrec : runEpoch m F u (stepBatch m F u p b).1 (i + 1) rest with
    | mk q lastOpt =>
      have hq : q = stepMany m F u (stepBatch m F u p b).1 rest := by
        rw [← ih (stepBatch m F u p b).1 (i + 1), hrec]
      cases lastOpt <;> simpa using hq

lemma refEpochLoss_cons (m : ModelSpec) (F : StepFns) (u : Bool) (p : Params)
    (b : Tensor × Tensor) (rest : List (Tensor × Tensor)) (hne : rest ≠ []) :
    refEpochLoss m F u p (b :: rest) =
      refEpochLoss m F u (stepBatch m F u p b).1 rest := by
  cases rest with
  | nil => exact absurd rfl hne
  | cons c rest =>
    unfold refEpochLoss
    rw [List.getLast?_cons_cons]
    cases (c :: rest).getLast? with
    | none => rfl
    | some bl => rw [show (b :: c :: rest).dropLast = b :: (c :: rest).dropLast from rfl,
        stepMany_cons]

lemma runEpoch_snd (m : ModelSpec) (F : StepFns) (u : Bool) :
    ∀ (dl : List (Tensor × Tensor)) (p : Params) (i : Nat), dl ≠ [] →
      (runEpoch m F u p i dl).2 =
        some (i + dl.length - 1, refEpochLoss m F u p dl) := by
  intro dl
  induction dl with
  | nil => intro p i h; exact absurd rfl h
  | cons b rest ih =>
    intro p i _
    by_cases hrest : rest = []
    · subst hrest
      simp only [runEpoch]
      show some (i, (stepBatch m F u p b).2) = _
      simp [refEpochLoss, stepMany]
    · have hIH := ih (stepBatch m F u p b).1 (i + 1) hrest
      simp only [runEpoch]
      cases hrec : runEpoch m F u (stepBatch m F u p b).1 (i + 1) rest with
      | mk q lastOpt =>
        rw [hrec] at hIH
        have hlast : lastOpt = some (i + 1 + rest.length - 1,
            refEpochLoss m F u (stepBatch m F u p b).1 rest) := hIH
        subst hlast
        show some (i + 1 + rest.length - 1,
            refEpochLoss m F u (stepBatch m F u p b).1 rest) = _
        rw [refEpochLoss_cons m F u p b rest hrest]
        have harith : i + 1 + rest.length - 1 = i + (b :: rest).length - 1 := by
          simp only [List.length_cons]
          omega
        rw [harith]

lemma evalCountsFrom_total (m : ModelSpec) (p : Params) :
    ∀ (dl : List (Tensor × Tensor)) (acc : Nat × Nat × Nat),
      (evalCountsFrom m p dl acc).2.2 = acc.2.2 + totalLabels dl := by
  intro dl
  induction dl with
  | nil => intro acc; simp [evalCountsFrom, totalLabels]
  | cons b rest ih =>
    intro acc
    rw [show evalCountsFrom m p (b :: rest) acc =
          evalCountsFrom m p rest
            (acc.1 + batchTop1 m p b.1 b.2, acc.2.1 + batchTop5 m p b.1 b.2,
              acc.2.2 + b.2.length) from rfl,
      ih]
    simp [totalLabels]
    omega

lemma evalCounts_total (m : ModelSpec) (p : Params) (dl : List (Tensor × Tensor)) :
    (evalCounts m p dl).2.2 = totalLabels dl := by
  rw [evalCounts, evalCountsFrom_total m p dl (0, 0, 0)]
  simp

/-- On a model with at least 5 classes and a non-empty loader, `eval`
succeeds with the reference counts. -/
lemma eval_counts_ok (u : Bool) (m : ModelSpec) (p : Params)
    (dl : List (Tensor × Tensor)) (h5 : 5 ≤ m.classCount) (hdl : dl ≠ []) :
    Solver.eval u m p dl = Except.ok (evalCounts m p dl) := by
  unfold Solver.eval
  rw [evalBatches_counts u m p h5 dl (0, 0, 0)]
  cases dl with
  | nil => exact absurd rfl hdl
  | cons b rest => rfl

/-- On a healthy loader (non-empty, at least one example, 5 classes),
`train_evaluate` succeeds with the two reference accuracies. -/
lemma train_evaluate_ok (u : Bool) (m : ModelSpec) (dl : List (Tensor × Tensor))
    (h5 : 5 ≤ m.classCount) (hdl : dl ≠ []) (htot : totalLabels dl ≠ 0)
    (p : Params) :
    Solver.train_evaluate u m p dl =
      Except.ok (((evalCounts m p dl).1 : ℚ) / ((evalCounts m p dl).2.2 : ℚ),
        ((evalCounts m p dl).2.1 : ℚ) / ((evalCounts m p dl).2.2 : ℚ)) := by
  unfold Solver.train_evaluate
  rw [eval_counts_ok u m p dl h5 hdl]
  show (if (evalCounts m p dl).2.2 = 0 then _ else _) = _
  rw [if_neg (by rw [evalCounts_total]; exact htot)]

/-- On a healthy loader and nonzero trigger intervals, every epoch of the
training loop succeeds and transforms the solver state exactly as
`afterEpoch` describes. -/
lemma epochStep_ok (m : ModelSpec) (F : StepFns) (cfg : Config) (version : String)
    (dl : List (Tensor × Tensor)) (hdl : dl ≠ []) (h5 : 5 ≤ m.classCount)
    (htot : totalLabels dl ≠ 0) (hlog : cfg.loss_log_step ≠ 0)
    (hsave : cfg.model_save_step ≠ 0) (heval : cfg.train_eval_step ≠ 0) :
    ∀ (st : TrainResult) (e : Nat),
      Solver.epochStep m F cfg version dl st e =
        Except.ok (afterEpoch m F cfg version dl st e) := by
  intro st e
  have hfst := runEpoch_fst m F cfg.use_gpu dl st.params 0
  have hsnd := runEpoch_snd m F cfg.use_gpu dl st.params 0 hdl
  have hte := train_evaluate_ok cfg.use_gpu m dl h5 hdl htot
  by_cases t1 : (e + 1) % cfg.loss_log_step = 0 <;>
    by_cases t2 : (e + 1) % cfg.model_save_step = 0 <;>
      by_cases t3 : (e + 1) % cfg.train_eval_step = 0 <;>
        simp [Solver.epochStep, Solver.logLossStep, Solver.saveStep,
          Solver.evalStep, hfst, hsnd, hte, afterEpoch, t1, t2, t3,
          hlog, hsave, heval]

/-- C8: with `num_epochs = 10`, `loss_log_step = 2` and start epoch 0 (on a
healthy run: non-empty loader with at least one example, a model with the 5
classes the in-loop evaluation needs, and nonzero save/eval intervals), the
loss log is printed exactly on the 1-indexed epochs 2, 4, 6, 8, 10 — never on
an odd epoch — and each `(epoch, loss)` pair appended to `self.losses`
carries the loss of the final batch of that (0-indexed) epoch, at the
parameters reached when that epoch starts. -/
theorem claim8_loss_log_every_two_epochs (m : ModelSpec) (F : StepFns)
    (cfg : Config) (version : String) (dl : List (Tensor × Tensor)) (p0 : Params)
    (h10 : cfg.num_epochs = 10) (h2 : cfg.loss_log_step = 2)
    (h0 : startEpoch cfg = Except.ok 0) (hdl : dl ≠ [])
    (h5 : 5 ≤ m.classCount) (htot : totalLabels dl ≠ 0)
    (hsave : cfg.model_save_step ≠ 0) (heval : cfg.train_eval_step ≠ 0) :
    (Solver.train m F cfg version dl p0).map (fun r => (r.printedLoss, r.losses)) =
      Except.ok ([2, 4, 6, 8, 10],
        [(1, refEpochLoss m F cfg.use_gpu (paramsAfter m F cfg.use_gpu dl p0 1) dl),
         (3, refEpochLoss m F cfg.use_gpu (paramsAfter m F cfg.use_gpu dl p0 3) dl),
         (5, refEpochLoss m F cfg.use_gpu (paramsAfter m F cfg.use_gpu dl p0 5) dl),
         (7, refEpochLoss m F cfg.use_gpu (paramsAfter m F cfg.use_gpu dl p0 7) dl),
         (9, refEpochLoss m F cfg.use_gpu (paramsAfter m F cfg.use_gpu dl p0 9) dl)]) := by
  have hlog : cfg.loss_log_step ≠ 0 := by omega
  have hstep := epochStep_ok m F cfg version dl hdl h5 htot hlog hsave heval
  have hp1 : paramsAfter m F cfg.use_gpu dl p0 1 =
      stepMany m F cfg.use_gpu p0 dl := rfl
  have hp3 : paramsAfter m F cfg.use_gpu dl p0 3 =
      stepMany m F cfg.use_gpu
        (stepMany m F cfg.use_gpu (stepMany m F cfg.use_gpu p0 dl) dl) dl := rfl
  have hp5 : paramsAfter m F cfg.use_gpu dl p0 5 =
      stepMany m F cfg.use_gpu
        (stepMany m F cfg.use_gpu (paramsAfter m F cfg.use_gpu dl p0 3) dl) dl := rfl
  have hp7 : paramsAfter m F cfg.use_gpu dl p0 7 =
      stepMany m F cfg.use_gpu
        (stepMany m F cfg.use_gpu (paramsAfter m F cfg.use_gpu dl p0 5) dl) dl := rfl
  have hp9 : paramsAfter m F cfg.use_gpu dl p0 9 =
      stepMany m F cfg.use_gpu
        (stepMany m F cfg.use_gpu (paramsAfter m F cfg.use_gpu dl p0 7) dl) dl := rfl
  rw [hp9, hp7, hp5, hp3, hp1]
  unfold Solver.train
  rw [h0]
  show (Solver.trainLoop m F cfg version dl (epochList 0 cfg.num_epochs)
      (initResult p0)).map _ = _
  rw [h10]
  rw [show epochList 0 10 = [0, 1, 2, 3, 4, 5, 6, 7, 8, 9] from rfl]
  simp only [Solver.trainLoop, hstep]
  simp [afterEpoch, h2, initResult, Except.map]

/-- Witness for C8 at the concrete run `exConfig` / `exModel5` / `exSteps` /
`exLoader`. -/
theorem claim8_loss_log_every_two_epochs_witness :
    exConfig.num_epochs = 10 ∧ exConfig.loss_log_step = 2 ∧
    startEpoch exConfig = Except.ok 0 ∧ exLoader ≠ [] ∧
    5 ≤ exModel5.classCount ∧ totalLabels exLoader ≠ 0 ∧
    exConfig.model_save_step ≠ 0 ∧ exConfig.train_eval_step ≠ 0 ∧
    (Solver.train exModel5 exSteps exConfig "vgg" exLoader exParams).map
        (fun r => (r.printedLoss, r.losses)) =
      Except.ok ([2, 4, 6, 8, 10],
        [(1, refEpochLoss exModel5 exSteps exConfig.use_gpu
              (paramsAfter exModel5 exSteps exConfig.use_gpu exLoader exParams 1)
              exLoader),
         (3, refEpochLoss exModel5 exSteps exConfig.use_gpu
              (paramsAfter exModel5 exSteps exConfig.use_gpu exLoader exParams 3)
              exLoader),
         (5, refEpochLoss exModel5 exSteps exConfig.use_gpu
              (paramsAfter exModel5 exSteps exConfig.use_gpu exLoader exParams 5)
              exLoader),
         (7, refEpochLoss exModel5 exSteps exConfig.use_gpu
              (paramsAfter exModel5 exSteps exConfig.use_gpu exLoader exParams 7)
              exLoader),
         (9, refEpochLoss exModel5 exSteps exConfig.use_gpu
              (paramsAfter exModel5 exSteps exConfig.use_gpu exLoader exParams 9)
              exLoader)]) :=
  ⟨rfl, rfl, rfl, by simp [exLoader], by decide, by decide, by decide, by decide,
    claim8_loss_log_every_two_epochs exModel5 exSteps exConfig "vgg" exLoader
      exParams rfl rfl rfl (by simp [exLoader]) (by decide) (by decide)
      (by decide) (by decide)⟩

end VGG
